import Mathlib

/-
Verification of the sales-report pipeline (`src/app.py`) against its
natural-language specification.

Modelling conventions:
* Python floats are modelled as exact rationals (`ℚ`); every numeric value
  appearing in the claims is exactly representable, and the arithmetic the
  pipeline performs on them (sums, products, one division) is exact there.
* A pandas cell is modelled as `Option String` (`none` = missing/NaN).
  `pd.to_datetime(..., errors="coerce")` and `pd.to_numeric(..., errors="coerce")`
  are modelled by executable parsers for the ISO `YYYY-MM-DD[ HH:MM[:SS]]`
  date form and plain decimal numerals; a parse failure yields `none`,
  exactly like `coerce` yields NaT/NaN.
* pandas' stable multi-key `sort_values` (lexsort) is modelled by the stable
  `List.insertionSort`; `groupby`'s sorted group keys are modelled by
  sorting the deduplicated key list.
* The Flask routes are modelled as explicit state-passing functions over an
  `AppState` holding the sqlite table and the static artifact directory.
-/

set_option allowUnsafeReducibility true
attribute [semireducible] Rat.add Rat.mul Rat.div Rat.sub Rat.neg Rat.inv

namespace Sales

/-- A calendar date as carried by a parsed `date` cell.  `Date.key` below is
its chronological sort key. -/
structure Date where
  year : Nat
  month : Nat
  day : Nat
deriving DecidableEq, Repr

/-- Chronological key of a date.  For dates produced by the parser
(`month < 100`, `day < 100`) this key orders dates exactly as pandas orders
`datetime.date` values. -/
def Date.key (d : Date) : Nat :=
  d.year * 10000 + d.month * 100 + d.day

/-- A parsed timestamp: `pd.to_datetime` keeps a time of day, which
`.dt.date` later discards when grouping by calendar day. -/
structure DateTime where
  date : Date
  hour : Nat
  minute : Nat
  second : Nat
deriving DecidableEq, Repr

/-- Split a character list at every occurrence of `c` (like `str.split`). -/
def splitOnChar (c : Char) : List Char → List (List Char)
  | [] => [[]]
  | x :: xs =>
    if x = c then [] :: splitOnChar c xs
    else
      match splitOnChar c xs with
      | [] => [[x]]
      | g :: gs => (x :: g) :: gs

/-- Numeric value of a digit string, most significant digit first. -/
def digitsVal (cs : List Char) : Nat :=
  cs.foldl (fun n c => 10 * n + (c.toNat - 48)) 0

/-- All characters are decimal digits. -/
def allDigits (cs : List Char) : Bool :=
  cs.all (fun c => c.isDigit)

/-- A fixed-width all-digit numeric field (e.g. the `YYYY` of a date). -/
def natField (cs : List Char) (len : Nat) : Option Nat :=
  if cs.length = len ∧ allDigits cs then some (digitsVal cs) else none

/-- Parse the `YYYY-MM-DD` portion of a date cell, with the range checks
`pd.to_datetime` performs (an out-of-range month or day coerces to NaT). -/
def parseYmd (cs : List Char) : Option Date :=
  match splitOnChar '-' cs with
  | [y, m, d] =>
    match natField y 4, natField m 2, natField d 2 with
    | some yy, some mm, some dd =>
      if 1 ≤ mm ∧ mm ≤ 12 ∧ 1 ≤ dd ∧ dd ≤ 31 then some ⟨yy, mm, dd⟩ else none
    | _, _, _ => none
  | _ => none

/-- Parse an optional `HH:MM` or `HH:MM:SS` time-of-day portion. -/
def parseHms (cs : List Char) : Option (Nat × Nat × Nat) :=
  match splitOnChar ':' cs with
  | [h, m] =>
    match natField h 2, natField m 2 with
    | some hh, some mm =>
      if hh ≤ 23 ∧ mm ≤ 59 then some (hh, mm, 0) else none
    | _, _ => none
  | [h, m, s] =>
    match natField h 2, natField m 2, natField s 2 with
    | some hh, some mm, some ss =>
      if hh ≤ 23 ∧ mm ≤ 59 ∧ ss ≤ 59 then some (hh, mm, ss) else none
    | _, _, _ => none
  | _ => none

/-- `pd.to_datetime(cell, errors="coerce")`, modelled for ISO
`YYYY-MM-DD[ HH:MM[:SS]]` texts; anything else coerces to NaT (`none`). -/
def parseDateTime (s : String) : Option DateTime :=
  match splitOnChar ' ' s.data with
  | [d] => (parseYmd d).map (fun dd => ⟨dd, 0, 0, 0⟩)
  | [d, t] =>
    match parseYmd d, parseHms t with
    | some dd, some (hh, mm, ss) => some ⟨dd, hh, mm, ss⟩
    | _, _ => none
  | _ => none

/-- Unsigned decimal numeral: `digits` or `digits.digits`. -/
def parseDec (cs : List Char) : Option ℚ :=
  match splitOnChar '.' cs with
  | [w] =>
    if w ≠ [] ∧ allDigits w then some ((digitsVal w : ℚ)) else none
  | [w, f] =>
    if w ≠ [] ∧ allDigits w ∧ allDigits f then
      some ((digitsVal w : ℚ) + mkRat (digitsVal f) (10 ^ f.length))
    else none
  | _ => none

/-- `pd.to_numeric(cell, errors="coerce")`, modelled for decimal numerals
with an optional leading minus sign; anything else coerces to NaN (`none`). -/
def parseNum (s : String) : Option ℚ :=
  match s.data with
  | [] => none
  | '-' :: rest => (parseDec rest).map (fun q => -q)
  | cs => parseDec cs

/-- A raw CSV row: each required column's cell, `none` when the cell is
empty (pandas reads an empty cell as NaN). -/
structure RawRow where
  date : Option String
  order_id : Option String
  product : Option String
  quantity : Option String
  unit_price : Option String
deriving DecidableEq, Repr

/-- The parsed CSV: its header (column names) and its data rows.  A row's
field is `none` whenever its column is absent from `cols` or its cell is
empty. -/
structure RawTable where
  cols : List String
  rows : List RawRow
deriving Repr

/-- A row surviving `load_and_clean`, including the computed
`revenue = quantity * unit_price` column (source line 65). -/
structure CleanRow where
  date : DateTime
  order_id : String
  product : String
  quantity : ℚ
  unit_price : ℚ
  revenue : ℚ
deriving DecidableEq, Repr

/-- `REQUIRED_COLS` (source line 19).  The Python value is a set; it is
listed here in the order `sorted(...)` enumerates it, so that a filter of
this list is itself sorted. -/
def REQUIRED_COLS : List String :=
  ["date", "order_id", "product", "quantity", "unit_price"]

/-- The missing required columns, sorted: `sorted(REQUIRED_COLS - set(df.columns))`
(source line 53). -/
def missingCols (cols : List String) : List String :=
  REQUIRED_COLS.filter (fun c => decide (¬ c ∈ cols))

/-- The `ValueError` message of the schema check (source line 55):
the missing column names, sorted and comma-joined. -/
def schemaErrorMsg (missing : List String) : String :=
  "Eksik sütun(lar): " ++ String.intercalate (", ") missing

/-- The per-row part of `load_and_clean` (source lines 57–65): coerce the
date and the two numeric cells, drop the row if any of the five fields is
missing after coercion (`dropna`), drop it when `quantity ≤ 0` or
`unit_price < 0`, and compute `revenue` for the survivors. -/
def cleanRow (r : RawRow) : Option CleanRow :=
  match r.date.bind parseDateTime, r.order_id, r.product,
      r.quantity.bind parseNum, r.unit_price.bind parseNum with
  | some d, some o, some p, some q, some u =>
    if 0 < q then
      if 0 ≤ u then some ⟨d, o, p, q, u, q * u⟩ else none
    else none
  | _, _, _, _, _ => none

/-- `load_and_clean` (source lines 50–66): the schema check first (raising
`ValueError` with the sorted, comma-joined missing columns), then the
row-level cleaning. -/
def load_and_clean (t : RawTable) : Except String (List CleanRow) :=
  if missingCols t.cols = [] then .ok (t.rows.filterMap cleanRow)
  else .error (schemaErrorMsg (missingCols t.cols))

instance {ε α : Type} [DecidableEq ε] [DecidableEq α] : DecidableEq (Except ε α)
  | .ok a, .ok b =>
    if h : a = b then .isTrue (by rw [h]) else .isFalse (by intro hx; cases hx; exact h rfl)
  | .error e, .error f =>
    if h : e = f then .isTrue (by rw [h]) else .isFalse (by intro hx; cases hx; exact h rfl)
  | .ok _, .error _ => .isFalse (by intro hx; cases hx)
  | .error _, .ok _ => .isFalse (by intro hx; cases hx)

/-- Python `int(x)` applied to a number: truncation toward zero
(`total_orders` and `total_items` pass through `int(...)`, source
lines 95–96). -/
def pyInt (q : ℚ) : Int :=
  q.num.tdiv (q.den : Int)

/-- Sum of the `revenue` column of a set of rows (`df["revenue"].sum()`). -/
def totalRevenue (rows : List CleanRow) : ℚ :=
  (rows.map (fun r => r.revenue)).sum

/-- pandas `nunique`: the number of distinct values in a column. -/
def nunique (xs : List String) : Nat :=
  xs.dedup.length

/-- `int(df["order_id"].nunique())` (source line 95). -/
def totalOrders (rows : List CleanRow) : Nat :=
  nunique (rows.map (fun r => r.order_id))

/-- `int(df["quantity"].sum())` (source line 96): note the truncating
`int(...)` around the float sum. -/
def totalItems (rows : List CleanRow) : Int :=
  pyInt ((rows.map (fun r => r.quantity)).sum)

/-- `float(total_revenue / total_orders) if total_orders else 0.0`
(source line 97). -/
def aov (rows : List CleanRow) : ℚ :=
  if totalOrders rows ≠ 0 then totalRevenue rows / (totalOrders rows : ℚ) else 0

/-- One row of the `top_products` frame: a per-product aggregate
(source lines 99–109). -/
structure ProductEntry where
  product : String
  revenue : ℚ
  units : ℚ
  orders : Nat
deriving DecidableEq, Repr

/-- One row of the `daily` frame before its `day` column is stringified:
a per-calendar-day aggregate (source lines 111–122). -/
structure DailyEntry where
  day : Date
  revenue : ℚ
  orders : Nat
  units : ℚ
deriving DecidableEq, Repr

/-- One record of `summary["daily"]` as persisted: the `day` column has
been converted to its ISO string (source line 125). -/
structure DailyRecord where
  day : String
  revenue : ℚ
  orders : Nat
  units : ℚ
deriving DecidableEq, Repr

/-- The `kpi` dictionary of `summarize` (source lines 128–133). -/
structure Kpi where
  total_revenue : ℚ
  total_orders : Nat
  total_items : Int
  aov : ℚ
deriving DecidableEq, Repr

/-- The value of `summarize` (source lines 127–136). -/
structure Summary where
  kpi : Kpi
  top_products : List ProductEntry
  daily : List DailyRecord
deriving DecidableEq, Repr

/-- Lexicographic order on strings via their character lists: the order
Python/pandas uses for the sorted group keys of `groupby`. -/
def strAsc (a b : String) : Prop :=
  a.data ≤ b.data

instance : DecidableRel strAsc := fun a b => by
  unfold strAsc; infer_instance

/-- The group keys of `df.groupby("product")`: the distinct products, in
sorted order (pandas sorts group keys). -/
def productKeys (rows : List CleanRow) : List String :=
  ((rows.map (fun r => r.product)).dedup).insertionSort strAsc

/-- The rows of one product group. -/
def productGroup (rows : List CleanRow) (p : String) : List CleanRow :=
  rows.filter (fun r => r.product = p)

/-- The aggregate row of one product group: summed revenue, summed units,
distinct orders (source lines 101–105). -/
def productEntry (rows : List CleanRow) (p : String) : ProductEntry :=
  { product := p
    revenue := totalRevenue (productGroup rows p)
    units := ((productGroup rows p).map (fun r => r.quantity)).sum
    orders := nunique ((productGroup rows p).map (fun r => r.order_id)) }

/-- The order of `sort_values(["revenue", "units"], ascending=False)`:
descending revenue, then descending units.  `a` sorts no later than `b`
exactly when this relation holds. -/
def prodDesc (a b : ProductEntry) : Prop :=
  b.revenue < a.revenue ∨ (b.revenue = a.revenue ∧ b.units ≤ a.units)

instance : DecidableRel prodDesc := fun a b => by
  unfold prodDesc; infer_instance

instance : IsTotal ProductEntry prodDesc where
  total a b := by
    unfold prodDesc
    rcases lt_trichotomy a.revenue b.revenue with h | h | h
    · exact Or.inr (Or.inl h)
    · rcases le_total a.units b.units with hu | hu
      · exact Or.inr (Or.inr ⟨h, hu⟩)
      · exact Or.inl (Or.inr ⟨h.symm, hu⟩)
    · exact Or.inl (Or.inl h)

instance : IsTrans ProductEntry prodDesc where
  trans a b c hab hbc := by
    unfold prodDesc at *
    rcases hab with h1 | ⟨h1, hu1⟩
    · rcases hbc with h2 | ⟨h2, hu2⟩
      · exact Or.inl (h2.trans h1)
      · exact Or.inl (h2 ▸ h1)
    · rcases hbc with h2 | ⟨h2, hu2⟩
      · exact Or.inl (h1 ▸ h2)
      · exact Or.inr ⟨h1 ▸ h2, hu2.trans hu1⟩

/-- The `top_products` frame (source lines 99–109): group by product,
aggregate, stable-sort by (revenue desc, units desc), take the first 10. -/
def topProducts (rows : List CleanRow) : List ProductEntry :=
  (((productKeys rows).map (productEntry rows)).insertionSort prodDesc).take 10

/-- Ascending chronological order on dates, used for the sorted group keys
of `df.groupby(df["date"].dt.date)`. -/
def dayAsc (a b : Date) : Prop :=
  a.key ≤ b.key

instance : DecidableRel dayAsc := fun a b => by
  unfold dayAsc; infer_instance

/-- The group keys of `df.groupby(df["date"].dt.date)`: the distinct
calendar days (time of day discarded), in ascending order. -/
def dayKeys (rows : List CleanRow) : List Date :=
  ((rows.map (fun r => r.date.date)).dedup).insertionSort dayAsc

/-- The rows falling on one calendar day (time of day discarded). -/
def dayGroup (rows : List CleanRow) (d : Date) : List CleanRow :=
  rows.filter (fun r => r.date.date = d)

/-- The aggregate row of one calendar-day group: summed revenue, distinct
orders, summed units (source lines 112–117). -/
def dailyEntry (rows : List CleanRow) (d : Date) : DailyEntry :=
  { day := d
    revenue := totalRevenue (dayGroup rows d)
    orders := nunique ((dayGroup rows d).map (fun r => r.order_id))
    units := ((dayGroup rows d).map (fun r => r.quantity)).sum }

/-- The order of `sort_values("day", ascending=False)`: descending day. -/
def dayDesc (a b : DailyEntry) : Prop :=
  b.day.key ≤ a.day.key

instance : DecidableRel dayDesc := fun a b => by
  unfold dayDesc; infer_instance

instance : IsTotal DailyEntry dayDesc where
  total a b := by unfold dayDesc; omega

instance : IsTrans DailyEntry dayDesc where
  trans a b c hab hbc := by unfold dayDesc at *; omega

/-- The `daily` frame before stringification (source lines 111–122):
group by calendar day, aggregate, sort by day descending, take the
first 14. -/
def dailyRollup (rows : List CleanRow) : List DailyEntry :=
  (((dayKeys rows).map (dailyEntry rows)).insertionSort dayDesc).take 14

/-- The decimal digit character of `n < 10`. -/
def digitChar (n : Nat) : Char :=
  match n with
  | 0 => '0' | 1 => '1' | 2 => '2' | 3 => '3' | 4 => '4'
  | 5 => '5' | 6 => '6' | 7 => '7' | 8 => '8' | _ => '9'

/-- Two-digit zero-padded numeral (for months and days, which the parser
bounds below 100). -/
def pad2 (n : Nat) : List Char :=
  [digitChar (n / 10 % 10), digitChar (n % 10)]

/-- Four-digit zero-padded numeral (for years, which the parser bounds
below 10000). -/
def pad4 (n : Nat) : List Char :=
  [digitChar (n / 1000 % 10), digitChar (n / 100 % 10),
   digitChar (n / 10 % 10), digitChar (n % 10)]

/-- `str(day)` for a `datetime.date`: the zero-padded ISO form, as produced
by `daily["day"].astype(str)` (source line 125). -/
def Date.toIso (d : Date) : String :=
  ⟨pad4 d.year ++ ('-' :: pad2 d.month) ++ ('-' :: pad2 d.day)⟩

/-- One `daily` record after `daily["day"] = daily["day"].astype(str)`
(source line 125). -/
def dailyRecord (e : DailyEntry) : DailyRecord :=
  ⟨e.day.toIso, e.revenue, e.orders, e.units⟩

/-- `summarize` (source lines 93–136). -/
def summarize (rows : List CleanRow) : Summary :=
  { kpi :=
      { total_revenue := totalRevenue rows
        total_orders := totalOrders rows
        total_items := totalItems rows
        aov := aov rows }
    top_products := topProducts rows
    daily := (dailyRollup rows).map dailyRecord }

/-- The artifact filename of `make_daily_revenue_chart` (source line 85):
built from the current timestamp formatted at second resolution
(`%Y%m%d_%H%M%S`), with no further disambiguation. -/
def chartFilename (ts : String) : String :=
  "daily_revenue_" ++ ts ++ ".png"

/-- The artifact names produced by a sequence of chart invocations within
one process run, given each invocation's second-resolution timestamp. -/
def chartNamesForRun (timestamps : List String) : List String :=
  timestamps.map chartFilename

/-- `make_daily_revenue_chart` (source lines 69–90) as a state transformer
on the artifact directory: it writes exactly one file, named from the
timestamp, and returns the filename. -/
def make_daily_revenue_chart (ts : String) (artifacts : List String) :
    String × List String :=
  (chartFilename ts, artifacts ++ [chartFilename ts])

/-- One row of the sqlite `reports` table (source lines 33–43), with the
three JSON payloads kept structured: `json.dumps`/`json.loads` round-trips
these records unchanged, so serialization is modelled as the identity. -/
structure StoredReport where
  id : Nat
  created_at : String
  original_filename : String
  kpi : Kpi
  top_products : List ProductEntry
  daily : List DailyRecord
  chart_file : String
deriving DecidableEq, Repr

/-- The process state the routes touch: the AUTOINCREMENT counter and rows
of the `reports` table, and the artifact files under `static/`. -/
structure AppState where
  nextId : Nat
  reports : List StoredReport
  artifacts : List String
deriving DecidableEq, Repr

/-- The observable outcome of the `/report` POST route: an error page
rendered with a message, or a redirect to the created report. -/
inductive CreateResult where
  | errorPage (msg : String)
  | created (id : Nat)
deriving DecidableEq, Repr

/-- The error message rendered when the cleaned dataset is empty
(source line 157). -/
def emptyDatasetMsg : String :=
  "Veri boş veya tamamen hatalı."

/-- `report_create` (source lines 148–190), for a submission that did
upload a file: clean, reject an empty cleaned dataset, otherwise
summarize, render the chart, and insert one row into the store.  The two
`datetime.now()` readings (chart timestamp, `created_at`) are parameters.
A `ValueError` from `load_and_clean` is caught by the route's handler and
rendered as an error page with the `Hata:` prefix of the handler. -/
def report_create (t : RawTable) (chartTs createdAt fname : String)
    (st : AppState) : CreateResult × AppState :=
  match load_and_clean t with
  | .error e => (.errorPage ("Hata: " ++ e), st)
  | .ok rows =>
    if rows.isEmpty then (.errorPage emptyDatasetMsg, st)
    else
      let summary := summarize rows
      let chartOut := make_daily_revenue_chart chartTs st.artifacts
      let rep : StoredReport :=
        { id := st.nextId
          created_at := createdAt
          original_filename := fname
          kpi := summary.kpi
          top_products := summary.top_products
          daily := summary.daily
          chart_file := chartOut.1 }
      (.created st.nextId,
        { nextId := st.nextId + 1
          reports := st.reports ++ [rep]
          artifacts := chartOut.2 })

/-- `report_view` (source lines 193–217): fetch the stored row by id
(`SELECT * FROM reports WHERE id = ?`), `none` when absent (404). -/
def report_view (rid : Nat) (st : AppState) : Option StoredReport :=
  st.reports.find? (fun r => r.id = rid)

/-- Store well-formedness: every stored id is below the AUTOINCREMENT
counter (sqlite assigns increasing ids). -/
def AppState.wf (st : AppState) : Prop :=
  ∀ r ∈ st.reports, r.id < st.nextId

/-- Scenario A, first raw row: `2024-01-01,O1,Widget,2,10.0`. -/
def rowA1 : RawRow :=
  ⟨some ("2024-01-01"), some ("O1"), some ("Widget"), some ("2"), some ("10.0")⟩

/-- Scenario A, second raw row: `2024-01-01,O1,Gadget,1,5.0`. -/
def rowA2 : RawRow :=
  ⟨some ("2024-01-01"), some ("O1"), some ("Gadget"), some ("1"), some ("5.0")⟩

/-- Scenario A, third raw row: `2024-01-02,O2,Widget,-1,10.0`. -/
def rowA3 : RawRow :=
  ⟨some ("2024-01-02"), some ("O2"), some ("Widget"), some ("-1"), some ("10.0")⟩

/-- The Scenario A input table. -/
def tableA : RawTable :=
  ⟨REQUIRED_COLS, [rowA1, rowA2, rowA3]⟩

/-- The timestamp `2024-01-01 00:00:00` shared by the surviving
Scenario A rows. -/
def dtA : DateTime :=
  ⟨⟨2024, 1, 1⟩, 0, 0, 0⟩

/-- The cleaned form of Scenario A's first row. -/
def cleanA1 : CleanRow :=
  ⟨dtA, "O1", "Widget", 2, 10, 20⟩

/-- The cleaned form of Scenario A's second row. -/
def cleanA2 : CleanRow :=
  ⟨dtA, "O1", "Gadget", 1, 5, 5⟩

/-- Scenario B's input: the `unit_price` column is absent. -/
def tableB : RawTable :=
  ⟨["date", "order_id", "product", "quantity"],
   [⟨some ("2024-01-01"), some ("O1"), some ("Widget"), some ("2"), none⟩]⟩

/-- Scenario C's input: its only row has `quantity = 0`, so cleaning
leaves nothing. -/
def tableC : RawTable :=
  ⟨REQUIRED_COLS,
   [⟨some ("2024-01-01"), some ("O1"), some ("Widget"), some ("0"), some ("1.0")⟩]⟩

/-- An input whose only row has the fractional quantity `2.5`. -/
def tableQ : RawTable :=
  ⟨REQUIRED_COLS,
   [⟨some ("2024-01-01"), some ("O1"), some ("Widget"), some ("2.5"), some ("1.0")⟩]⟩

/-- The cleaned form of `tableQ`'s row: quantity `5/2`, revenue `5/2`. -/
def cleanQ : CleanRow :=
  ⟨dtA, "O1", "Widget", mkRat 5 2, 1, mkRat 5 2⟩

/-- A second-resolution chart timestamp. -/
def tsA : String :=
  "20240101_120000"

/-- A different second-resolution chart timestamp. -/
def tsB : String :=
  "20240101_120001"

/-- A fresh application state: empty store, empty artifact directory,
counter at 1 (sqlite's first AUTOINCREMENT id). -/
def st0 : AppState :=
  ⟨1, [], []⟩

/-- C1: end-to-end on Scenario A's three rows, cleaning drops exactly the
third row (its quantity is negative) and `summarize` on the two survivors
yields total_revenue 25, total_orders 1, total_items 3,
average_order_value 25, top products Widget (20, 2 units, 1 order) then
Gadget (5, 1 unit, 1 order), and one daily entry 2024-01-01 with
revenue 25, 1 order, 3 units. -/
theorem scenarioA_end_to_end :
    load_and_clean tableA = .ok [cleanA1, cleanA2] ∧
    summarize [cleanA1, cleanA2] =
      { kpi := { total_revenue := 25, total_orders := 1, total_items := 3, aov := 25 }
        top_products := [⟨"Widget", 20, 2, 1⟩, ⟨"Gadget", 5, 1, 1⟩]
        daily := [⟨"2024-01-01", 25, 1, 3⟩] } :=
  ⟨by decide, by decide⟩

/-- C7: `summarize` sets average_order_value to
total_revenue / total_orders when total_orders is positive and to 0 when
total_orders is 0, and total_orders counts distinct order identifiers,
so the guarded division never divides by zero. -/
theorem aov_guarded_division (rows : List CleanRow) :
    (summarize rows).kpi.total_orders = (rows.map (fun r => r.order_id)).dedup.length ∧
    ((summarize rows).kpi.total_orders = 0 → (summarize rows).kpi.aov = 0) ∧
    (0 < (summarize rows).kpi.total_orders →
      (summarize rows).kpi.aov
        = (summarize rows).kpi.total_revenue / ((summarize rows).kpi.total_orders : ℚ)) := by
  refine ⟨rfl, ?_, ?_⟩
  · intro h
    have h' : totalOrders rows = 0 := h
    simp [summarize, aov, h']
  · intro h
    have h' : totalOrders rows ≠ 0 := by
      have h0 : 0 < totalOrders rows := h
      omega
    simp [summarize, aov, h']

/-- Witness for C7 at the Scenario A cleaned rows. -/
theorem aov_guarded_division_check :
    (summarize [cleanA1, cleanA2]).kpi.aov
      = (summarize [cleanA1, cleanA2]).kpi.total_revenue
        / ((summarize [cleanA1, cleanA2]).kpi.total_orders : ℚ) :=
  (aov_guarded_division [cleanA1, cleanA2]).2.2 (by decide)

/-- C3: when required columns are absent, `load_and_clean` fails with the
schema error whose message joins exactly the missing column names, sorted
and comma-separated, and the failure does not depend on the data rows
(no row-level processing happens first). -/
theorem schema_error_lists_missing_sorted (t : RawTable)
    (h : missingCols t.cols ≠ []) :
    load_and_clean t = .error (schemaErrorMsg (missingCols t.cols)) ∧
    (∀ c, c ∈ missingCols t.cols ↔ c ∈ REQUIRED_COLS ∧ ¬ c ∈ t.cols) ∧
    (missingCols t.cols).Pairwise strAsc ∧
    (∀ rows, load_and_clean ⟨t.cols, rows⟩ = load_and_clean t) := by
  refine ⟨by simp [load_and_clean, h], ?_, ?_, ?_⟩
  · intro c
    simp [missingCols, List.mem_filter]
  · have hs : REQUIRED_COLS.Pairwise strAsc := by decide
    exact hs.filter _
  · intro rows
    simp [load_and_clean, h]

/-- Witness for C3 at Scenario B's table (missing `unit_price`). -/
theorem schema_error_lists_missing_sorted_check :
    load_and_clean tableB = .error (schemaErrorMsg (missingCols tableB.cols)) :=
  (schema_error_lists_missing_sorted tableB (by decide)).1

/-- C4: when the cleaned dataset is empty, `report_create` renders the
empty-dataset error and leaves the state untouched — no store row and no
chart artifact are created — and that outcome differs from every schema
failure outcome (whose messages carry the handler's `Hata:` prefix). -/
theorem empty_dataset_no_persistence (t : RawTable) (cts cat fn : String)
    (st : AppState) (h : load_and_clean t = .ok []) :
    report_create t cts cat fn st = (.errorPage emptyDatasetMsg, st) ∧
    (∀ m, CreateResult.errorPage emptyDatasetMsg ≠ CreateResult.errorPage ("Hata: " ++ m)) := by
  constructor
  · simp [report_create, h]
  · intro m heq
    have hdata : emptyDatasetMsg.data = ("Hata: " ++ m).data :=
      congrArg String.data (CreateResult.errorPage.inj heq)
    rw [String.data_append] at hdata
    have hhead : some 'V' = some 'H' := congrArg List.head? hdata
    simp at hhead

/-- Witness for C4 at Scenario C's table (its only row has quantity 0). -/
theorem empty_dataset_no_persistence_check :
    report_create tableC tsA tsA ("sales.csv") st0 = (.errorPage emptyDatasetMsg, st0) :=
  (empty_dataset_no_persistence tableC tsA tsA ("sales.csv") st0 (by decide)).1

/-- C2: with all required columns present, `load_and_clean` never errors
and keeps exactly the rows whose date parses, whose quantity and unit
price coerce to numbers, whose five fields are all non-missing after
coercion, and which satisfy quantity > 0 and unit_price ≥ 0; each
survivor carries revenue = quantity * unit_price. -/
theorem clean_row_characterization (t : RawTable) (h : missingCols t.cols = []) :
    load_and_clean t = .ok (t.rows.filterMap cleanRow) ∧
    ∀ (r : RawRow) (c : CleanRow),
      cleanRow r = some c ↔
        ∃ d o p q u, r.date.bind parseDateTime = some d ∧ r.order_id = some o ∧
          r.product = some p ∧ r.quantity.bind parseNum = some q ∧
          r.unit_price.bind parseNum = some u ∧ 0 < q ∧ 0 ≤ u ∧
          c = ⟨d, o, p, q, u, q * u⟩ := by
  constructor
  · simp [load_and_clean, h]
  · intro r c
    unfold cleanRow
    rcases hd : r.date.bind parseDateTime with _ | d <;>
      rcases ho : r.order_id with _ | o <;>
        rcases hp : r.product with _ | p <;>
          rcases hq : r.quantity.bind parseNum with _ | q <;>
            rcases hu : r.unit_price.bind parseNum with _ | u <;>
              simp_all
    intro h1 h2
    exact eq_comm

/-- Witness for C2 at Scenario A's table. -/
theorem clean_row_characterization_check :
    load_and_clean tableA = .ok (tableA.rows.filterMap cleanRow) :=
  (clean_row_characterization tableA (by decide)).1

/-- C5: the top products returned by `summarize` are per-product
aggregates sorted by (revenue desc, units desc), truncated to at most 10,
and when fewer than 10 distinct products exist every product of the
cleaned dataset appears. -/
theorem top_products_ranking (rows : List CleanRow) (_h : rows ≠ []) :
    (summarize rows).top_products = topProducts rows ∧
    (topProducts rows).length ≤ 10 ∧
    (topProducts rows).Pairwise prodDesc ∧
    (∀ e ∈ topProducts rows,
      e.product ∈ rows.map (fun r => r.product) ∧ e = productEntry rows e.product) ∧
    ((rows.map (fun r => r.product)).dedup.length < 10 →
      ∀ p ∈ rows.map (fun r => r.product), ∃ e ∈ topProducts rows, e.product = p) := by
  refine ⟨rfl, List.length_take_le 10 _, ?_, ?_, ?_⟩
  · exact List.Pairwise.sublist (List.take_sublist 10 _) (List.sorted_insertionSort prodDesc _)
  · intro e he
    have hmem : e ∈ ((productKeys rows).map (productEntry rows)).insertionSort prodDesc :=
      List.Sublist.mem he (List.take_sublist 10 _)
    have hmem2 : e ∈ (productKeys rows).map (productEntry rows) :=
      (List.perm_insertionSort prodDesc _).mem_iff.mp hmem
    rcases List.mem_map.mp hmem2 with ⟨p, hpk, hpe⟩
    have hpin : p ∈ rows.map (fun r => r.product) := by
      have hmd : p ∈ (rows.map (fun r => r.product)).dedup :=
        (List.perm_insertionSort strAsc _).mem_iff.mp hpk
      exact List.mem_dedup.mp hmd
    have hprod : e.product = p := by subst hpe; rfl
    constructor
    · rw [hprod]; exact hpin
    · rw [hprod, hpe]
  · intro hlen p hp
    have hkeys : (productKeys rows).length = (rows.map (fun r => r.product)).dedup.length :=
      (List.perm_insertionSort strAsc _).length_eq
    have hsorted_len :
        (((productKeys rows).map (productEntry rows)).insertionSort prodDesc).length
          = (productKeys rows).length := by
      rw [(List.perm_insertionSort prodDesc _).length_eq, List.length_map]
    have hall : topProducts rows
        = ((productKeys rows).map (productEntry rows)).insertionSort prodDesc := by
      unfold topProducts
      exact List.take_of_length_le (by omega)
    have hpk : p ∈ productKeys rows :=
      (List.perm_insertionSort strAsc _).mem_iff.mpr (List.mem_dedup.mpr hp)
    refine ⟨productEntry rows p, ?_, rfl⟩
    rw [hall]
    exact (List.perm_insertionSort prodDesc _).mem_iff.mpr (List.mem_map_of_mem _ hpk)

/-- Witness for C5 at the Scenario A cleaned rows. -/
theorem top_products_ranking_check :
    (topProducts [cleanA1, cleanA2]).length ≤ 10 :=
  (top_products_ranking [cleanA1, cleanA2] (by decide)).2.1

/-- A date produced by `parseYmd` has month and day below 100 (the field
widths are fixed and range-checked). -/
theorem parseYmd_month_day_lt (cs : List Char) (d : Date)
    (h : parseYmd cs = some d) : d.month < 100 ∧ d.day < 100 := by
  unfold parseYmd at h
  split at h
  · split at h
    · split_ifs at h with hcond
      cases h
      obtain ⟨h1, h2, h3, h4⟩ := hcond
      refine ⟨?_, ?_⟩ <;> simp <;> omega
    · exact Option.noConfusion h
  · exact Option.noConfusion h

/-- A timestamp produced by `parseDateTime` has month and day below 100. -/
theorem parseDateTime_month_day_lt (s : String) (d : DateTime)
    (h : parseDateTime s = some d) : d.date.month < 100 ∧ d.date.day < 100 := by
  unfold parseDateTime at h
  split at h
  · rcases Option.map_eq_some'.mp h with ⟨dd, hdd, hmk⟩
    have hlt := parseYmd_month_day_lt _ _ hdd
    rw [← hmk]
    exact hlt
  · split at h
    · cases h
      exact parseYmd_month_day_lt _ _ (by assumption)
    · exact Option.noConfusion h
  · exact Option.noConfusion h

/-- A cleaned row's date has month and day below 100. -/
theorem cleanRow_month_day_lt (r : RawRow) (c : CleanRow)
    (h : cleanRow r = some c) : c.date.date.month < 100 ∧ c.date.date.day < 100 := by
  unfold cleanRow at h
  split at h
  case _ d o p q u hd ho hp hq hu =>
    split_ifs at h with h1 h2
    cases h
    rcases Option.bind_eq_some.mp hd with ⟨s, hs, hparse⟩
    exact parseDateTime_month_day_lt _ _ hparse
  case _ => exact Option.noConfusion h

/-- Every row of a successfully cleaned dataset has its date's month and
day below 100; this justifies the boundedness hypothesis of the daily
rollup theorem. -/
theorem clean_dates_bounded (t : RawTable) (rows : List CleanRow)
    (h : load_and_clean t = .ok rows) :
    ∀ r ∈ rows, r.date.date.month < 100 ∧ r.date.date.day < 100 := by
  unfold load_and_clean at h
  split_ifs at h
  cases h
  intro r hr
  rcases List.mem_filterMap.mp hr with ⟨raw, _, hcr⟩
  exact cleanRow_month_day_lt raw r hcr

/-- `Date.key` identifies dates uniquely within the parser's bounds. -/
theorem Date.key_injective (a b : Date) (ha : a.month < 100 ∧ a.day < 100)
    (hb : b.month < 100 ∧ b.day < 100) (h : a.key = b.key) : a = b := by
  obtain ⟨ay, am, ad⟩ := a
  obtain ⟨by_, bm, bd⟩ := b
  simp [Date.key] at h ha hb ⊢
  omega

/-- Revenue sums split over a filter by a disjunction of two disjoint
row predicates. -/
theorem sum_revenue_filter_or (rows : List CleanRow) (p q : CleanRow → Bool)
    (hdisj : ∀ r, ¬(p r = true ∧ q r = true)) :
    ((rows.filter (fun r => p r || q r)).map (fun r => r.revenue)).sum
      = ((rows.filter p).map (fun r => r.revenue)).sum
        + ((rows.filter q).map (fun r => r.revenue)).sum := by
  induction rows with
  | nil => simp
  | cons r rs ih =>
    by_cases hp : p r = true <;> by_cases hq : q r = true
    · exact absurd ⟨hp, hq⟩ (hdisj r)
    · simp [List.filter_cons, hp, hq, ih]; ring
    · simp [List.filter_cons, hp, hq, ih]; ring
    · simp [List.filter_cons, hp, hq, ih]

/-- Summing the per-day group revenues over a duplicate-free day list
equals the revenue of the rows falling on those days. -/
theorem sum_day_groups (rows : List CleanRow) (ds : List Date) (hnd : ds.Nodup) :
    (ds.map (fun d => totalRevenue (dayGroup rows d))).sum
      = ((rows.filter (fun r => decide (r.date.date ∈ ds))).map (fun r => r.revenue)).sum := by
  induction ds with
  | nil => simp
  | cons d ds ih =>
    have hd : d ∉ ds := (List.nodup_cons.mp hnd).1
    have hnd2 : ds.Nodup := (List.nodup_cons.mp hnd).2
    have hdisj : ∀ r : CleanRow,
        ¬(decide (r.date.date = d) = true ∧ decide (r.date.date ∈ ds) = true) := by
      intro r ⟨h1, h2⟩
      rw [decide_eq_true_iff] at h1 h2
      exact hd (h1 ▸ h2)
    have hsplit := sum_revenue_filter_or rows
      (fun r => decide (r.date.date = d)) (fun r => decide (r.date.date ∈ ds)) hdisj
    have hfun : (fun r : CleanRow => decide (r.date.date ∈ d :: ds))
        = (fun r : CleanRow => decide (r.date.date = d) || decide (r.date.date ∈ ds)) := by
      funext r
      simp [List.mem_cons]
    rw [List.map_cons, List.sum_cons, ih hnd2, hfun, hsplit]
    rfl

/-- C6: the daily rollup returned by `summarize` has at most 14 entries,
is strictly sorted by calendar day descending, contains only days on
which a cleaned row falls (time of day discarded), each entry being that
day's aggregate, and its revenues sum to the total revenue of the rows
restricted to exactly those days.  The boundedness hypothesis holds for
every dataset produced by `load_and_clean` (`clean_dates_bounded`). -/
theorem daily_rollup_window (rows : List CleanRow) (_h : rows ≠ [])
    (hb : ∀ r ∈ rows, r.date.date.month < 100 ∧ r.date.date.day < 100) :
    (summarize rows).daily = (dailyRollup rows).map dailyRecord ∧
    (dailyRollup rows).length ≤ 14 ∧
    (dailyRollup rows).Pairwise (fun a b => b.day.key < a.day.key) ∧
    (∀ e ∈ dailyRollup rows,
      e.day ∈ rows.map (fun r => r.date.date) ∧ e = dailyEntry rows e.day) ∧
    ((dailyRollup rows).map (fun e => e.revenue)).sum
      = ((rows.filter (fun r => r.date.date ∈ (dailyRollup rows).map (fun e => e.day))).map
          (fun r => r.revenue)).sum := by
  have hperm_keys : (dayKeys rows).Perm (rows.map (fun r => r.date.date)).dedup :=
    List.perm_insertionSort dayAsc _
  have hperm_sort : (((dayKeys rows).map (dailyEntry rows)).insertionSort dayDesc).Perm
      ((dayKeys rows).map (dailyEntry rows)) :=
    List.perm_insertionSort dayDesc _
  have hmem_entry : ∀ e ∈ ((dayKeys rows).map (dailyEntry rows)).insertionSort dayDesc,
      e.day ∈ rows.map (fun r => r.date.date) ∧ e = dailyEntry rows e.day := by
    intro e he
    rcases List.mem_map.mp (hperm_sort.mem_iff.mp he) with ⟨d, hdk, hde⟩
    have hdin : d ∈ rows.map (fun r => r.date.date) :=
      List.mem_dedup.mp (hperm_keys.mem_iff.mp hdk)
    have hday : e.day = d := by subst hde; rfl
    constructor
    · rw [hday]; exact hdin
    · rw [hday, hde]
  have hmem_take : ∀ e ∈ dailyRollup rows,
      e.day ∈ rows.map (fun r => r.date.date) ∧ e = dailyEntry rows e.day := by
    intro e he
    exact hmem_entry e (List.Sublist.mem he (List.take_sublist 14 _))
  have hbound : ∀ e ∈ ((dayKeys rows).map (dailyEntry rows)).insertionSort dayDesc,
      e.day.month < 100 ∧ e.day.day < 100 := by
    intro e he
    rcases List.mem_map.mp (hmem_entry e he).1 with ⟨r, hr, hrd⟩
    exact hrd ▸ hb r hr
  have hkeys_nodup : (dayKeys rows).Nodup :=
    hperm_keys.symm.nodup (List.nodup_dedup _)
  have hmap_day : ((dayKeys rows).map (dailyEntry rows)).map (fun e => e.day)
      = dayKeys rows := by
    rw [List.map_map]
    exact (List.map_congr_left (fun d _ => rfl)).trans (List.map_id _)
  have hentries_nodup :
      (((dayKeys rows).map (dailyEntry rows)).map (fun e => e.day)).Nodup := by
    rw [hmap_day]; exact hkeys_nodup
  have hsort_days_nodup :
      ((((dayKeys rows).map (dailyEntry rows)).insertionSort dayDesc).map
        (fun e => e.day)).Nodup :=
    ((hperm_sort.map (fun e => e.day)).symm).nodup hentries_nodup
  have hne : (((dayKeys rows).map (dailyEntry rows)).insertionSort dayDesc).Pairwise
      (fun a b => a.day ≠ b.day) :=
    List.pairwise_map.mp hsort_days_nodup
  have hsorted : (((dayKeys rows).map (dailyEntry rows)).insertionSort dayDesc).Pairwise
      dayDesc :=
    List.sorted_insertionSort dayDesc _
  have hstrict : (((dayKeys rows).map (dailyEntry rows)).insertionSort dayDesc).Pairwise
      (fun a b => b.day.key < a.day.key) := by
    refine (hsorted.and hne).imp_of_mem ?_
    intro a b hain hbin ⟨hle, hneq⟩
    have hkeyne : b.day.key ≠ a.day.key := by
      intro hk
      exact hneq ((Date.key_injective a.day b.day (hbound a hain) (hbound b hbin) hk.symm).symm).symm
    exact lt_of_le_of_ne hle hkeyne
  refine ⟨rfl, List.length_take_le 14 _, ?_, hmem_take, ?_⟩
  · exact List.Pairwise.sublist (List.take_sublist 14 _) hstrict
  · have hTnodup : ((dailyRollup rows).map (fun e => e.day)).Nodup :=
      List.Nodup.sublist (List.Sublist.map _ (List.take_sublist 14 _)) hsort_days_nodup
    have hmapT : (dailyRollup rows).map (fun e => e.revenue)
        = ((dailyRollup rows).map (fun e => e.day)).map
            (fun d => totalRevenue (dayGroup rows d)) := by
      rw [List.map_map]
      refine List.map_congr_left ?_
      intro e he
      conv_lhs => rw [(hmem_take e he).2]
      rfl
    rw [hmapT, sum_day_groups rows _ hTnodup]

/-- Witness for C6 at the Scenario A cleaned rows. -/
theorem daily_rollup_window_check :
    (dailyRollup [cleanA1, cleanA2]).length ≤ 14 :=
  (daily_rollup_window [cleanA1, cleanA2] (by decide) (by decide)).2.1

/-- C8: a successful `report_create` stores one record carrying exactly
the KPI summary, the top-product sequence, and the daily sequence that
`summarize` computed, in their computed order, and `report_view` on the
returned identifier retrieves exactly that record. -/
theorem report_roundtrip (t : RawTable) (cts cat fn : String) (st : AppState)
    (hwf : st.wf) (rows : List CleanRow)
    (hc : load_and_clean t = .ok rows) (hne : rows ≠ []) :
    ∃ rep : StoredReport,
      report_create t cts cat fn st
        = (.created st.nextId,
           ⟨st.nextId + 1, st.reports ++ [rep], st.artifacts ++ [chartFilename cts]⟩) ∧
      report_view st.nextId (report_create t cts cat fn st).2 = some rep ∧
      rep.kpi = (summarize rows).kpi ∧
      rep.top_products = (summarize rows).top_products ∧
      rep.daily = (summarize rows).daily ∧
      rep.chart_file = chartFilename cts ∧
      rep.id = st.nextId ∧ rep.created_at = cat ∧ rep.original_filename = fn := by
  have hise : rows.isEmpty = false := by
    cases rows with
    | nil => exact absurd rfl hne
    | cons a l => rfl
  refine ⟨⟨st.nextId, cat, fn, (summarize rows).kpi, (summarize rows).top_products,
          (summarize rows).daily, chartFilename cts⟩, ?_, ?_, rfl, rfl, rfl, rfl, rfl, rfl, rfl⟩
  · simp [report_create, hc, hise, make_daily_revenue_chart]
  · have hcreate : (report_create t cts cat fn st).2
        = ⟨st.nextId + 1,
           st.reports ++ [⟨st.nextId, cat, fn, (summarize rows).kpi,
             (summarize rows).top_products, (summarize rows).daily, chartFilename cts⟩],
           st.artifacts ++ [chartFilename cts]⟩ := by
      simp [report_create, hc, hise, make_daily_revenue_chart]
    rw [hcreate]
    unfold report_view
    rw [List.find?_append]
    have hnone : st.reports.find? (fun r => decide (r.id = st.nextId)) = none := by
      rw [List.find?_eq_none]
      intro x hx
      simp only [decide_eq_true_iff]
      have hlt := hwf x hx
      omega
    rw [hnone]
    simp

/-- Witness for C8: Scenario A's table submitted against a fresh store. -/
theorem report_roundtrip_check :
    ∃ rep : StoredReport,
      report_create tableA tsA tsB ("sales.csv") st0
        = (.created st0.nextId,
           ⟨st0.nextId + 1, st0.reports ++ [rep], st0.artifacts ++ [chartFilename tsA]⟩) ∧
      report_view st0.nextId (report_create tableA tsA tsB ("sales.csv") st0).2 = some rep ∧
      rep.kpi = (summarize [cleanA1, cleanA2]).kpi ∧
      rep.top_products = (summarize [cleanA1, cleanA2]).top_products ∧
      rep.daily = (summarize [cleanA1, cleanA2]).daily ∧
      rep.chart_file = chartFilename tsA ∧
      rep.id = st0.nextId ∧ rep.created_at = tsB ∧ rep.original_filename = "sales.csv" :=
  report_roundtrip tableA tsA tsB ("sales.csv") st0
    (by intro r hr; simp [st0] at hr) [cleanA1, cleanA2] (by decide) (by decide)

/-- `chartFilename` is injective in the timestamp. -/
theorem chartFilename_injective (s t : String)
    (h : chartFilename s = chartFilename t) : s = t := by
  unfold chartFilename at h
  have hd := congrArg String.data h
  rw [String.data_append, String.data_append, String.data_append, String.data_append] at hd
  exact String.ext (List.append_cancel_left (List.append_cancel_right hd))

/-- Counterexample to C9: two chart invocations within the same second
carry the same second-resolution timestamp, and the artifact names they
produce are then equal, not distinct — the later render overwrites the
earlier artifact. -/
theorem chart_name_collision_same_second :
    ¬ (chartNamesForRun [tsA, tsA]).Pairwise (fun a b => a ≠ b) := by
  intro hp
  rcases List.pairwise_cons.mp hp with ⟨hne, _⟩
  exact hne _ (List.mem_cons_self _ _) rfl

/-- C9 (amended): chart invocations whose second-resolution timestamps
are pairwise distinct produce pairwise distinct artifact names; only two
invocations within the same second collide (the naming scheme has no
within-second disambiguator). -/
theorem chart_names_distinct_timestamps (tss : List String)
    (h : tss.Pairwise (fun a b => a ≠ b)) :
    (chartNamesForRun tss).Pairwise (fun a b => a ≠ b) := by
  unfold chartNamesForRun
  rw [List.pairwise_map]
  exact h.imp (fun hne heq => hne (chartFilename_injective _ _ heq))

/-- Witness for the amended C9: two invocations one second apart. -/
theorem chart_names_distinct_timestamps_check :
    (chartNamesForRun [tsA, tsB]).Pairwise (fun a b => a ≠ b) :=
  chart_names_distinct_timestamps [tsA, tsB] (by simp [List.pairwise_cons, tsA, tsB])

/-- Counterexample to C10: a cleaned dataset with the single quantity
`5/2` (reachable from raw input `2.5`) has quantity sum `5/2`, but
`summarize` reports total_items 2 — `int(...)` truncates the sum, so
total_items does not equal the sum of quantities for non-integer
quantities. -/
theorem total_items_truncation_counterexample :
    load_and_clean tableQ = .ok [cleanQ] ∧
    (summarize [cleanQ]).kpi.total_items = 2 ∧
    ([cleanQ].map (fun r : CleanRow => r.quantity)).sum = mkRat 5 2 ∧
    ¬ (((summarize [cleanQ]).kpi.total_items : ℚ)
        = ([cleanQ].map (fun r : CleanRow => r.quantity)).sum) := by
  refine ⟨by decide, by decide, by decide, ?_⟩
  intro hcast
  have h2 : (summarize [cleanQ]).kpi.total_items = 2 := by decide
  have hsum : ([cleanQ].map (fun r : CleanRow => r.quantity)).sum = mkRat 5 2 := by decide
  rw [h2, hsum, Rat.mkRat_eq_div] at hcast
  norm_num at hcast

/-- C10 (amended): total_items equals the truncation toward zero
(Python `int(...)`) of the sum of the cleaned quantities, and therefore
equals the sum itself exactly when that sum is an integer — in
particular whenever every quantity is an integer. -/
theorem total_items_truncated_sum (rows : List CleanRow) :
    (summarize rows).kpi.total_items
      = pyInt ((rows.map (fun r : CleanRow => r.quantity)).sum) ∧
    (((rows.map (fun r : CleanRow => r.quantity)).sum).den = 1 →
      ((summarize rows).kpi.total_items : ℚ)
        = (rows.map (fun r : CleanRow => r.quantity)).sum) := by
  refine ⟨rfl, ?_⟩
  intro hden
  have h1 : (summarize rows).kpi.total_items
      = ((rows.map (fun r : CleanRow => r.quantity)).sum).num.tdiv
          (((rows.map (fun r : CleanRow => r.quantity)).sum).den : Int) := rfl
  rw [h1, hden]
  simp only [Nat.cast_one, Int.tdiv_one]
  exact (Rat.den_eq_one_iff _).mp hden

/-- Witness for the amended C10 at the Scenario A cleaned rows (integer
quantities, so total_items equals the sum). -/
theorem total_items_truncated_sum_check :
    ((summarize [cleanA1, cleanA2]).kpi.total_items : ℚ)
      = ([cleanA1, cleanA2].map (fun r => r.quantity)).sum :=
  (total_items_truncated_sum [cleanA1, cleanA2]).2 (by decide)

end Sales
